import Mathlib

/-!
Shallow embedding of `src/demo/03-wow-a-triangle/src/03-wow-a-triangle.rs`,
a GLFW/OpenGL demo that spins a colored triangle.

Modelling conventions:
* `GLfloat` (f32) is modelled as the exact rationals `ℚ`; the decimal
  literals of the source (`0.001`, `0.5`, ...) denote the corresponding
  exact rationals.
* Library trigonometric functions (used by cgmath's
  `Rotation3::from_angle_*`) are abstract parameters `Env.sinQ`, `Env.cosQ`.
* GL attribute/uniform location lookups are abstract parameters of `Env`.
* Side-effecting GL/GLFW calls are recorded in a trace of `Cmd` values;
  GL object names are allocated deterministically (vs = 1, fs = 2,
  program = 3, vao = 1, vbo = 1) in the creation order of the source.
* Input is a stream `events : ℕ → List Event` giving the key events that
  `glfw.poll_events` has queued and `handle_events` drains during frame n
  (frames numbered from 0).
-/

namespace Spin

/-- f32 scalars of the source, modelled as exact rationals. -/
abbrev GLfloat := ℚ

/- GL enumeration constants, their numeric values taken from the `gl` crate. -/

def GL_ARRAY_BUFFER : ℕ := 0x8892

def GL_STATIC_DRAW : ℕ := 0x88E4

def GL_FLOAT : ℕ := 0x1406

def GL_COLOR_BUFFER_BIT : ℕ := 0x4000

def GL_TRIANGLES : ℕ := 0x0004

def GL_VERTEX_SHADER : ℕ := 0x8B31

def GL_FRAGMENT_SHADER : ℕ := 0x8B30

/-- `static VERTEX_DATA: [GLfloat, ..18]` — the literal 18-float table:
3 vertices, each 2 position floats followed by 4 RGBA color floats. -/
def VERTEX_DATA : List GLfloat :=
  [ 0.0,  0.5,    0.0,  0.0,  1.0,  1.0,
    0.5, -0.5,    0.0,  1.0,  0.0,  1.0,
   -0.5, -0.5,    1.0,  0.0,  0.0,  1.0]

/-- `static VERTEX_SHADER_SRC` (GLSL source; braces escaped). -/
def VERTEX_SHADER_SRC : String :=
  "\n    #version 150\n    uniform mat4 modelview;\n    in vec2 position;\n    in vec4 color;\n    out vec4 in_color;\n    void main() \x7b\n       gl_Position = modelview * vec4(position, 0.0, 1.0);\n       in_color = color;\n    \x7d\n"

/-- `static FRAGMENT_SHADER_SRC` (GLSL source; braces escaped). -/
def FRAGMENT_SHADER_SRC : String :=
  "\n    #version 150\n    in vec4 in_color;\n    out vec4 out_color;\n    void main() \x7b\n       out_color = in_color;\n    \x7d\n"

/- ## Input events (glfw) -/

/-- Keys: we distinguish `KeyEscape` from every other key, which is all
`handle_events` inspects. -/
inductive Key where
  | escape : Key
  | otherKey (code : ℕ) : Key
deriving DecidableEq

/-- glfw key actions. -/
inductive KeyAction where
  | press : KeyAction
  | release : KeyAction
  | repeatKey : KeyAction
deriving DecidableEq

/-- A queued glfw window event: `KeyEvent(key, scancode, action, mods)`,
or any non-key event (matched by the `_ => {}` arm of `handle_events`). -/
inductive Event where
  | keyEvent (k : Key) (scancode : ℕ) (a : KeyAction) (mods : ℕ) : Event
  | otherEvent : Event
deriving DecidableEq

/-- Observable state of the glfw window that the program manipulates. -/
structure WindowState where
  shouldClose : Bool
  keyPolling : Bool
deriving DecidableEq

/-- `window.set_should_close(b)`. -/
def set_should_close (w : WindowState) (b : Bool) : WindowState :=
  { w with shouldClose := b }

/-- `fn handle_events`: drains the queued events in order; an
`(KeyEscape, _, Press, _)` event sets the window's should-close flag, every
other event is ignored. -/
def handle_events (evs : List Event) (w : WindowState) : WindowState :=
  match evs with
  | [] => w
  | e :: rest =>
      handle_events rest
        (match e with
          | .keyEvent .escape _ .press _ => set_should_close w true
          | _ => w)

/-- `true` iff the event list contains an Escape key-press event
(the only pattern `handle_events` reacts to). -/
def hasEscapePress (evs : List Event) : Bool :=
  evs.any (fun e =>
    match e with
    | .keyEvent .escape _ .press _ => true
    | _ => false)

/- ## cgmath quaternions -/

/-- cgmath `Vector3<GLfloat>`. -/
structure Vector3 where
  x : GLfloat
  y : GLfloat
  z : GLfloat
deriving DecidableEq

/-- cgmath `Quaternion<GLfloat>`: scalar part `s` and vector part `v`. -/
structure Quaternion where
  s : GLfloat
  v : Vector3
deriving DecidableEq

/-- `Quaternion::new(s, x, y, z)`. -/
def Quaternion.new (s x y z : GLfloat) : Quaternion :=
  ⟨s, ⟨x, y, z⟩⟩

/-- `Quaternion::identity()`. -/
def Quaternion.identity : Quaternion :=
  Quaternion.new 1 0 0 0

/-- cgmath `Quaternion::mul_q`, the Hamilton product. -/
def Quaternion.mul_q (q r : Quaternion) : Quaternion :=
  Quaternion.new
    (q.s * r.s - q.v.x * r.v.x - q.v.y * r.v.y - q.v.z * r.v.z)
    (q.s * r.v.x + q.v.x * r.s + q.v.y * r.v.z - q.v.z * r.v.y)
    (q.s * r.v.y + q.v.y * r.s + q.v.z * r.v.x - q.v.x * r.v.z)
    (q.s * r.v.z + q.v.z * r.s + q.v.x * r.v.y - q.v.y * r.v.x)

/-- Abstract parts of the execution environment: the `sin`/`cos` library
functions used by cgmath (on exact rationals), and the GL driver's answers
to attribute/uniform location queries on the linked program. -/
structure Env where
  sinQ : GLfloat → GLfloat
  cosQ : GLfloat → GLfloat
  attribLoc : String → ℤ
  uniformLoc : String → ℤ

/-- cgmath `Rotation3::from_angle_x(rad θ)`: half-angle axis quaternion. -/
def from_angle_x (env : Env) (θ : GLfloat) : Quaternion :=
  Quaternion.new (env.cosQ (θ * 0.5)) (env.sinQ (θ * 0.5)) 0 0

/-- cgmath `Rotation3::from_angle_y(rad θ)`. -/
def from_angle_y (env : Env) (θ : GLfloat) : Quaternion :=
  Quaternion.new (env.cosQ (θ * 0.5)) 0 (env.sinQ (θ * 0.5)) 0

/-- cgmath `Rotation3::from_angle_z(rad θ)`. -/
def from_angle_z (env : Env) (θ : GLfloat) : Quaternion :=
  Quaternion.new (env.cosQ (θ * 0.5)) 0 0 (env.sinQ (θ * 0.5))

/-- cgmath `Quaternion::to_matrix4`, flattened to the 16 scalar arguments of
`Matrix4::new` (column-major). -/
def Quaternion.to_matrix4 (q : Quaternion) : List GLfloat :=
  let x2 := q.v.x + q.v.x
  let y2 := q.v.y + q.v.y
  let z2 := q.v.z + q.v.z
  let xx2 := x2 * q.v.x
  let xy2 := x2 * q.v.y
  let xz2 := x2 * q.v.z
  let yy2 := y2 * q.v.y
  let yz2 := y2 * q.v.z
  let zz2 := z2 * q.v.z
  let sy2 := y2 * q.s
  let sz2 := z2 * q.s
  let sx2 := x2 * q.s
  [1 - yy2 - zz2, xy2 + sz2, xz2 - sy2, 0,
   xy2 - sz2, 1 - xx2 - zz2, yz2 + sx2, 0,
   xz2 + sy2, yz2 - sx2, 1 - xx2 - yy2, 0,
   0, 0, 0, 1]

/- ## Command trace -/

/-- glfw window hints issued before window creation. -/
inductive WindowHint where
  | contextVersion (major minor : ℕ) : WindowHint
  | openglForwardCompat (b : Bool) : WindowHint
  | openglCoreProfile : WindowHint
deriving DecidableEq

/-- glfw window modes. -/
inductive WindowMode where
  | windowed : WindowMode
  | fullScreen : WindowMode
deriving DecidableEq

/-- One GL / GLFW call issued by the program, with the arguments it passes.
Buffer sizes and attribute strides/offsets are in bytes
(`sizeof_float = 4`); uploaded float data is carried inline. -/
inductive Cmd where
  | windowHint (h : WindowHint) : Cmd
  | createWindow (width height : ℕ) (title : String) (mode : WindowMode) : Cmd
  | setKeyPolling (b : Bool) : Cmd
  | makeCurrent : Cmd
  | loadWith : Cmd
  | createShader (ty : ℕ) : Cmd
  | shaderSource (shader : ℕ) (src : String) : Cmd
  | compileShader (shader : ℕ) : Cmd
  | createProgram : Cmd
  | attachShader (program shader : ℕ) : Cmd
  | linkProgram (program : ℕ) : Cmd
  | genVertexArrays : Cmd
  | bindVertexArray (vao : ℕ) : Cmd
  | genBuffers : Cmd
  | bindBuffer (target vbo : ℕ) : Cmd
  | bufferData (target : ℕ) (sizeBytes : ℕ) (data : List GLfloat) (usage : ℕ) : Cmd
  | useProgram (program : ℕ) : Cmd
  | bindFragDataLocation (program idx : ℕ) (name : String) : Cmd
  | getAttribLocation (program : ℕ) (name : String) : Cmd
  | enableVertexAttribArray (loc : ℕ) : Cmd
  | vertexAttribPointer (loc size ty : ℕ) (normalized : Bool)
      (strideBytes offsetBytes : ℕ) : Cmd
  | getUniformLocation (program : ℕ) (name : String) : Cmd
  | pollEvents : Cmd
  | clearColor (r g b a : GLfloat) : Cmd
  | clear (mask : ℕ) : Cmd
  | uniformMatrix4fv (location : ℤ) (count : ℕ) (transpose : Bool)
      (mat : List GLfloat) : Cmd
  | drawArrays (mode : ℕ) (first count : ℕ) : Cmd
  | swapBuffers : Cmd
  | deleteProgram (program : ℕ) : Cmd
  | deleteShader (shader : ℕ) : Cmd
  | deleteBuffers (vbo : ℕ) : Cmd
  | deleteVertexArrays (vao : ℕ) : Cmd
deriving DecidableEq

/-- `pos_attr as GLuint`: the Rust `as` cast from `GLint` (i32) to
`GLuint` (u32), i.e. reduction mod 2^32. -/
def glUintCast (i : ℤ) : ℕ :=
  (i % 2 ^ 32).toNat

/-- `sizeof::<GLfloat>()`. -/
def sizeof_float : ℕ := 4

/-- `fn compile_shader(src, ty)`: `shader` is the name `gl::CreateShader`
returned, `compileOk` is whether the driver's compilation succeeded.  The
function returns the created handle and issues source upload plus compile,
with no status query: its result never depends on `compileOk`. -/
def compile_shader (compileOk : Bool) (shader : ℕ) (src : String) (ty : ℕ) :
    ℕ × List Cmd :=
  (shader, [Cmd.createShader ty, Cmd.shaderSource shader src, Cmd.compileShader shader])

/-- `fn link_program(vs, fs)`: `program` is the name `gl::CreateProgram`
returned, `linkOk` whether linking succeeded.  Attaches both shaders and
links, with no status query: its result never depends on `linkOk`. -/
def link_program (linkOk : Bool) (program vs fs : ℕ) : ℕ × List Cmd :=
  (program, [Cmd.createProgram, Cmd.attachShader program vs,
    Cmd.attachShader program fs, Cmd.linkProgram program])

/- ## The render loop -/

/-- The mutable local state of `main`'s render loop: the window, the
accumulated orientation quaternion and the three angular velocities. -/
structure FrameState where
  window : WindowState
  quat : Quaternion
  velx : GLfloat
  vely : GLfloat
  velz : GLfloat
deriving DecidableEq

/-- State just before entering the `while !window.should_close()` loop:
key polling on, identity quaternion, zero velocities. -/
def initState : FrameState :=
  { window := { shouldClose := false, keyPolling := true }
    quat := Quaternion.identity
    velx := 0, vely := 0, velz := 0 }

/-- `fn uniform_quaternion`: uploads the quaternion's 4x4 matrix to the
given uniform location. -/
def uniform_quaternion (location : ℤ) (q : Quaternion) : List Cmd :=
  [Cmd.uniformMatrix4fv location 1 false q.to_matrix4]

/-- One iteration of the render-loop body, given the events queued for this
frame: drain events, clear to black, bump the three velocities, right-
multiply the quaternion by the x, y, z axis rotations (in that order) built
from the just-updated velocities, upload the matrix, draw, swap. -/
def frameStep (env : Env) (st : FrameState) (evs : List Event) :
    FrameState × List Cmd :=
  let w := handle_events evs st.window
  let velx := st.velx + 0.001
  let vely := st.vely - 0.003
  let velz := st.velz - 0.001
  let q1 := st.quat.mul_q (from_angle_x env velx)
  let q2 := q1.mul_q (from_angle_y env vely)
  let q3 := q2.mul_q (from_angle_z env velz)
  ({ window := w, quat := q3, velx := velx, vely := vely, velz := velz },
   [Cmd.pollEvents, Cmd.clearColor 0 0 0 1, Cmd.clear GL_COLOR_BUFFER_BIT]
     ++ uniform_quaternion (env.uniformLoc "modelview") q3
     ++ [Cmd.drawArrays GL_TRIANGLES 0 3, Cmd.swapBuffers])

/-- Loop state at the top of iteration `n` (just before the
`!window.should_close()` check): once the flag is set the state freezes,
since the loop body no longer runs. -/
def stateAt (env : Env) (events : ℕ → List Event) : ℕ → FrameState
  | 0 => initState
  | n + 1 =>
      let st := stateAt env events n
      if st.window.shouldClose then st else (frameStep env st (events n)).1

/-- Frame `n` executes iff the should-close flag is still clear when the
loop condition is checked at the top of iteration `n`. -/
def frameRuns (env : Env) (events : ℕ → List Event) (n : ℕ) : Prop :=
  (stateAt env events n).window.shouldClose = false

instance (env : Env) (events : ℕ → List Event) (n : ℕ) :
    Decidable (frameRuns env events n) := by
  unfold frameRuns; infer_instance

/-- The GL commands issued by the first `n` iterations of the render loop
(iterations whose top-of-loop check found the flag set contribute none). -/
def loopTrace (env : Env) (events : ℕ → List Event) : ℕ → List Cmd
  | 0 => []
  | n + 1 =>
      let st := stateAt env events n
      loopTrace env events n
        ++ (if st.window.shouldClose then [] else (frameStep env st (events n)).2)

/- ## main: setup, loop, cleanup -/

/-- The straight-line setup sequence of `main` up to the render loop:
hints, window, shaders, program, vao/vbo, vertex upload, attribute layout,
uniform lookup.  Handles: vs = 1, fs = 2, program = 3, vao = 1, vbo = 1. -/
def setupTrace (env : Env) : List Cmd :=
  [Cmd.windowHint (WindowHint.contextVersion 3 2),
   Cmd.windowHint (WindowHint.openglForwardCompat true),
   Cmd.windowHint WindowHint.openglCoreProfile,
   Cmd.createWindow 800 600 "Spiiiin" WindowMode.windowed,
   Cmd.setKeyPolling true,
   Cmd.makeCurrent,
   Cmd.loadWith]
  ++ (compile_shader true 1 VERTEX_SHADER_SRC GL_VERTEX_SHADER).2
  ++ (compile_shader true 2 FRAGMENT_SHADER_SRC GL_FRAGMENT_SHADER).2
  ++ (link_program true 3 1 2).2
  ++ [Cmd.genVertexArrays,
      Cmd.bindVertexArray 1,
      Cmd.genBuffers,
      Cmd.bindBuffer GL_ARRAY_BUFFER 1,
      Cmd.bufferData GL_ARRAY_BUFFER (VERTEX_DATA.length * sizeof_float)
        VERTEX_DATA GL_STATIC_DRAW,
      Cmd.useProgram 3,
      Cmd.bindFragDataLocation 3 0 "out_color",
      Cmd.getAttribLocation 3 "position",
      Cmd.getAttribLocation 3 "color",
      Cmd.enableVertexAttribArray (glUintCast (env.attribLoc "position")),
      Cmd.enableVertexAttribArray (glUintCast (env.attribLoc "color")),
      Cmd.vertexAttribPointer (glUintCast (env.attribLoc "position")) 2 GL_FLOAT
        false (6 * sizeof_float) 0,
      Cmd.vertexAttribPointer (glUintCast (env.attribLoc "color")) 4 GL_FLOAT
        false (6 * sizeof_float) (2 * sizeof_float),
      Cmd.getUniformLocation 3 "modelview"]

/-- The cleanup sequence after the loop exits: program, both shaders
(fs = 2 first, then vs = 1), the buffer, the vertex array. -/
def cleanupTrace : List Cmd :=
  [Cmd.deleteProgram 3, Cmd.deleteShader 2, Cmd.deleteShader 1,
   Cmd.deleteBuffers 1, Cmd.deleteVertexArrays 1]

/-- The full command trace of a run of `main` whose loop exits at the top
of iteration `k` (meaningful when `(stateAt env events k).window.shouldClose`). -/
def mainTrace (env : Env) (events : ℕ → List Event) (k : ℕ) : List Cmd :=
  setupTrace env ++ loopTrace env events k ++ cleanupTrace

/-- Outcome of the two fallible initialisation steps of `main`:
`glfw::init(..).unwrap()` and `glfw.create_window(..).expect(..)`. -/
inductive InitOutcome where
  | ok : InitOutcome
  | initFail : InitOutcome
  | windowFail : InitOutcome
deriving DecidableEq

/-- `fn main`: on a context/window creation failure the process dies at
once with the panic message and issues no GL commands; otherwise it runs
setup, the loop (exiting at iteration `k`) and cleanup. -/
def mainResult (env : Env) (o : InitOutcome) (events : ℕ → List Event)
    (k : ℕ) : Except String (List Cmd) :=
  match o with
  | .initFail => .error "glfw::init failed"
  | .windowFail => .error "Failed to create GLFW window."
  | .ok => .ok (mainTrace env events k)

/- ## Auxiliary definitions used by the theorems -/

/-- The input stream of a run with no input at all. -/
def noEvents : ℕ → List Event := fun _ => []

/-- A concrete environment, used to instantiate theorems on closed inputs. -/
def envZero : Env :=
  { sinQ := fun _ => 0, cosQ := fun _ => 1
    attribLoc := fun _ => 0, uniformLoc := fun _ => 0 }

/-- Recognises `gl::BufferData` commands. -/
def isBufferData (c : Cmd) : Bool :=
  match c with
  | .bufferData _ _ _ _ => true
  | _ => false

/-- Recognises the four GL object-deletion commands. -/
def isDeleteCmd (c : Cmd) : Bool :=
  match c with
  | .deleteProgram _ => true
  | .deleteShader _ => true
  | .deleteBuffers _ => true
  | .deleteVertexArrays _ => true
  | _ => false

/-- Recognises `gl::GetAttribLocation` commands. -/
def isGetAttribLocation (c : Cmd) : Bool :=
  match c with
  | .getAttribLocation _ _ => true
  | _ => false

/-- Recognises `gl::VertexAttribPointer` commands. -/
def isVertexAttribPointer (c : Cmd) : Bool :=
  match c with
  | .vertexAttribPointer _ _ _ _ _ _ => true
  | _ => false

/-- Recognises glfw window hints and window creation. -/
def isWindowCmd (c : Cmd) : Bool :=
  match c with
  | .windowHint _ => true
  | .createWindow _ _ _ _ => true
  | _ => false

/- ## Helper lemmas -/

/-- `handle_events` in closed form: it sets the should-close flag iff some
drained event is an Escape press, and touches nothing else. -/
lemma handle_events_spec (evs : List Event) (w : WindowState) :
    handle_events evs w =
      if hasEscapePress evs then set_should_close w true else w := by
  induction evs generalizing w with
  | nil => simp [handle_events, hasEscapePress]
  | cons e rest ih =>
      cases e with
      | keyEvent k sc a mods =>
          cases k <;> cases a <;>
            simp [handle_events, hasEscapePress, ih, set_should_close]
      | otherEvent => simp [handle_events, hasEscapePress, ih]

/-- With no input, the loop never closes and the velocities follow their
closed forms `0.001·n`, `−0.003·n`, `−0.001·n`. -/
lemma stateAt_noEvents_fields (env : Env) (n : ℕ) :
    (stateAt env noEvents n).window.shouldClose = false ∧
    (stateAt env noEvents n).velx = 0.001 * n ∧
    (stateAt env noEvents n).vely = -0.003 * n ∧
    (stateAt env noEvents n).velz = -0.001 * n := by
  induction n with
  | zero => refine ⟨rfl, ?_, ?_, ?_⟩ <;> simp [stateAt, initState]
  | succ n ih =>
      obtain ⟨hc, hx, hy, hz⟩ := ih
      have hstep : stateAt env noEvents (n + 1) =
          (frameStep env (stateAt env noEvents n) []).1 := by
        simp [stateAt, hc, noEvents]
      refine ⟨?_, ?_, ?_, ?_⟩ <;>
        rw [hstep] <;>
        simp [frameStep, handle_events, hc, hx, hy, hz] <;>
        push_cast <;> ring

/-- C2 -- After `n` iterations of the render loop the three angular
velocities, which start at 0 and are bumped by their fixed per-frame deltas
(+0.001, −0.003, −0.001) at the start of each frame before use, equal
`0.001·n`, `−0.003·n` and `−0.001·n` respectively. -/
theorem velocity_closed_form (env : Env) (n : ℕ) :
    (stateAt env noEvents n).velx = 0.001 * n ∧
    (stateAt env noEvents n).vely = -0.003 * n ∧
    (stateAt env noEvents n).velz = -0.001 * n :=
  (stateAt_noEvents_fields env n).2

/-- C6 -- Across frames the velocities move strictly monotonically with no
clamping or wraparound: `velx` strictly increases, `vely` and `velz`
strictly decrease. -/
theorem velocity_strict_monotone (env : Env) (n : ℕ) :
    (stateAt env noEvents (n + 1)).velx > (stateAt env noEvents n).velx ∧
    (stateAt env noEvents (n + 1)).vely < (stateAt env noEvents n).vely ∧
    (stateAt env noEvents (n + 1)).velz < (stateAt env noEvents n).velz := by
  obtain ⟨-, hx, hy, hz⟩ := stateAt_noEvents_fields env n
  obtain ⟨-, hx', hy', hz'⟩ := stateAt_noEvents_fields env (n + 1)
  rw [hx, hy, hz, hx', hy', hz']
  push_cast
  refine ⟨by linarith, by linarith, by linarith⟩

/-- C10 -- Draining a queue with no Escape key-press (releases, repeats and
other keys included) leaves the window state unchanged; a queue containing
an Escape press sets the should-close flag and changes nothing else. -/
theorem handle_events_only_escape_press (evs : List Event) (w : WindowState) :
    (hasEscapePress evs = false → handle_events evs w = w) ∧
    (hasEscapePress evs = true →
      handle_events evs w = set_should_close w true) := by
  refine ⟨fun h => ?_, fun h => ?_⟩ <;> rw [handle_events_spec, h] <;> simp

/-- Closed-input instance of `handle_events_only_escape_press`: a queue of
an A-key press, an Escape release, an Escape repeat and a non-key event
changes nothing, while one with an Escape press sets the flag. -/
theorem handle_events_only_escape_press_witness :
    handle_events
        [Event.keyEvent (Key.otherKey 65) 0 KeyAction.press 0,
         Event.keyEvent Key.escape 0 KeyAction.release 0,
         Event.keyEvent Key.escape 0 KeyAction.repeatKey 0,
         Event.otherEvent]
        { shouldClose := false, keyPolling := true } =
      { shouldClose := false, keyPolling := true } ∧
    handle_events [Event.otherEvent, Event.keyEvent Key.escape 1 KeyAction.press 0]
        { shouldClose := false, keyPolling := true } =
      set_should_close { shouldClose := false, keyPolling := true } true :=
  ⟨(handle_events_only_escape_press _ _).1 (by decide),
   (handle_events_only_escape_press _ _).2 (by decide)⟩

/- ## C1: quaternion composition -/

/-- The spec's closed-form description of the orientation after `N`
input-free frames: starting from the identity, frame `i` (1-based)
right-multiplies by the x-, then y-, then z-axis rotation quaternions
built from the velocity closed forms `0.001·i`, `−0.003·i`, `−0.001·i`.
Stated from the spec's words, to be compared with the loop of the source. -/
def specQuatAfterFrames (env : Env) (N : ℕ) : Quaternion :=
  (List.range N).foldl
    (fun q (i : ℕ) =>
      ((q.mul_q (from_angle_x env (0.001 * ((i : GLfloat) + 1)))).mul_q
          (from_angle_y env (-0.003 * ((i : GLfloat) + 1)))).mul_q
        (from_angle_z env (-0.001 * ((i : GLfloat) + 1))))
    Quaternion.identity

/-- C1 -- Each executed frame right-multiplies the accumulated quaternion
by the three single-axis rotations built from the just-updated velocities,
in the fixed order x then y then z; consequently after `N` input-free
frames the quaternion is the deterministic function of `N` obtained by
iterating that update from the identity. -/
theorem quat_composition (env : Env) :
    (∀ (events : ℕ → List Event) (n : ℕ), frameRuns env events n →
      (stateAt env events (n + 1)).quat =
        (((stateAt env events n).quat.mul_q
            (from_angle_x env ((stateAt env events n).velx + 0.001))).mul_q
          (from_angle_y env ((stateAt env events n).vely - 0.003))).mul_q
          (from_angle_z env ((stateAt env events n).velz - 0.001))) ∧
    (∀ N : ℕ, (stateAt env noEvents N).quat = specQuatAfterFrames env N) := by
  constructor
  · intro events n hrun
    have hrun' : (stateAt env events n).window.shouldClose = false := hrun
    simp [stateAt, hrun', frameStep]
  · intro N
    induction N with
    | zero => simp [stateAt, initState, specQuatAfterFrames]
    | succ n ih =>
        obtain ⟨hc, hx, hy, hz⟩ := stateAt_noEvents_fields env n
        have hstep : stateAt env noEvents (n + 1) =
            (frameStep env (stateAt env noEvents n) []).1 := by
          simp [stateAt, hc, noEvents]
        have e1 : (stateAt env noEvents n).velx + 0.001 =
            0.001 * ((n : GLfloat) + 1) := by rw [hx]; ring
        have e2 : (stateAt env noEvents n).vely - 0.003 =
            -0.003 * ((n : GLfloat) + 1) := by rw [hy]; ring
        have e3 : (stateAt env noEvents n).velz - 0.001 =
            -0.001 * ((n : GLfloat) + 1) := by rw [hz]; ring
        rw [hstep]
        show (((stateAt env noEvents n).quat.mul_q
            (from_angle_x env ((stateAt env noEvents n).velx + 0.001))).mul_q
          (from_angle_y env ((stateAt env noEvents n).vely - 0.003))).mul_q
          (from_angle_z env ((stateAt env noEvents n).velz - 0.001)) =
            specQuatAfterFrames env (n + 1)
        rw [e1, e2, e3, ih, specQuatAfterFrames, specQuatAfterFrames,
          List.range_succ, List.foldl_append]
        simp

/-- Closed-input instance of `quat_composition`: the per-frame update law
at frame 0 of an input-free run in a concrete environment. -/
theorem quat_composition_witness :
    (stateAt envZero noEvents 1).quat =
      (((stateAt envZero noEvents 0).quat.mul_q
          (from_angle_x envZero ((stateAt envZero noEvents 0).velx + 0.001))).mul_q
        (from_angle_y envZero ((stateAt envZero noEvents 0).vely - 0.003))).mul_q
        (from_angle_z envZero ((stateAt envZero noEvents 0).velz - 0.001)) :=
  (quat_composition envZero).1 noEvents 0 (by decide)

/- ## C3: Escape terminates the loop, never early -/

/-- Once the should-close flag is set, it stays set. -/
lemma shouldClose_mono (env : Env) (events : ℕ → List Event) (n : ℕ)
    (h : (stateAt env events n).window.shouldClose = true) :
    (stateAt env events (n + 1)).window.shouldClose = true := by
  simp [stateAt, h]

/-- If frame `k` executes, every earlier frame executed. -/
lemma frameRuns_of_le (env : Env) (events : ℕ → List Event) {j k : ℕ}
    (hjk : j ≤ k) (hk : frameRuns env events k) : frameRuns env events j := by
  induction k with
  | zero => exact Nat.le_zero.mp hjk ▸ hk
  | succ k ih =>
      rcases Nat.lt_or_ge j (k + 1) with hlt | hge
      · have hk' : frameRuns env events k := by
          by_contra hcl
          have : (stateAt env events k).window.shouldClose = true := by
            revert hcl; unfold frameRuns
            cases (stateAt env events k).window.shouldClose <;> simp
          have htrue := shouldClose_mono env events k this
          have hfalse : (stateAt env events (k + 1)).window.shouldClose = false := hk
          rw [htrue] at hfalse
          exact Bool.noConfusion hfalse
        exact ih (Nat.lt_succ_iff.mp hlt) hk'
      · have hj : j = k + 1 := Nat.le_antisymm hjk hge
        subst hj
        exact hk

/-- C3 -- If the Escape key-press is drained during an executing frame `k`,
then every frame up to and including `k` executes (the loop never stops
before `k`), and frame `k+1` does not: the flag set inside frame `k` is
seen at the top of the next iteration. -/
theorem escape_stops_loop (env : Env) (events : ℕ → List Event) (k : ℕ)
    (hrun : frameRuns env events k)
    (hesc : hasEscapePress (events k) = true) :
    (∀ j ≤ k, frameRuns env events j) ∧ ¬ frameRuns env events (k + 1) := by
  refine ⟨fun j hj => frameRuns_of_le env events hj hrun, ?_⟩
  have hrun' : (stateAt env events k).window.shouldClose = false := hrun
  have : (stateAt env events (k + 1)).window.shouldClose = true := by
    simp [stateAt, hrun', frameStep, handle_events_spec, hesc, set_should_close]
  unfold frameRuns
  simp [this]

/-- Closed-input instance of `escape_stops_loop`: Escape arriving in frame 2
lets frames 0–2 run and stops the loop at the top of iteration 3. -/
theorem escape_stops_loop_witness :
    (∀ j ≤ 2, frameRuns envZero
      (fun n => if n = 2 then [Event.keyEvent Key.escape 1 KeyAction.press 0] else []) j) ∧
    ¬ frameRuns envZero
      (fun n => if n = 2 then [Event.keyEvent Key.escape 1 KeyAction.press 0] else []) 3 :=
  escape_stops_loop envZero _ 2 (by decide) (by decide)

/- ## Trace lemmas -/

/-- No render-loop iteration ever issues a `BufferData` command. -/
lemma loopTrace_filter_bufferData (env : Env) (events : ℕ → List Event)
    (n : ℕ) : (loopTrace env events n).filter isBufferData = [] := by
  induction n with
  | zero => rfl
  | succ n ih =>
      simp only [loopTrace, List.filter_append, ih, List.nil_append]
      split <;> rfl

/-- No render-loop iteration ever issues a deletion command. -/
lemma loopTrace_filter_deleteCmd (env : Env) (events : ℕ → List Event)
    (n : ℕ) : (loopTrace env events n).filter isDeleteCmd = [] := by
  induction n with
  | zero => rfl
  | succ n ih =>
      simp only [loopTrace, List.filter_append, ih, List.nil_append]
      split <;> rfl

/-- C4 -- The whole run uploads exactly one buffer: the literal 18-float
table (3 vertices of 2 position plus 4 RGBA color floats, contiguous),
with static-draw usage, to the array-buffer target; the upload lies in the
pre-loop setup and nothing after the setup ever touches buffer contents. -/
theorem vertex_buffer_uploaded_once (env : Env) (events : ℕ → List Event)
    (k : ℕ) :
    (mainTrace env events k).filter isBufferData =
      [Cmd.bufferData GL_ARRAY_BUFFER (18 * sizeof_float)
        [0.0, 0.5, 0.0, 0.0, 1.0, 1.0,
         0.5, -0.5, 0.0, 1.0, 0.0, 1.0,
         -0.5, -0.5, 1.0, 0.0, 0.0, 1.0] GL_STATIC_DRAW] ∧
    (loopTrace env events k ++ cleanupTrace).filter isBufferData = [] := by
  constructor
  · simp only [mainTrace, List.filter_append, loopTrace_filter_bufferData,
      List.nil_append]
    rfl
  · simp only [List.filter_append, loopTrace_filter_bufferData,
      List.nil_append]
    rfl

/-- C5 -- `compile_shader` and `link_program` return the created handle
and issue no status query, independently of whether compilation/linking
succeeded; only context/window creation failure aborts the run (with the
fatal expect-message), and a run past window creation always completes. -/
theorem only_window_failure_handled (env : Env) (events : ℕ → List Event)
    (k : ℕ) (compileOk linkOk : Bool) (sh pr v f : ℕ) (src : String)
    (ty : ℕ) :
    compile_shader compileOk sh src ty =
      (sh, [Cmd.createShader ty, Cmd.shaderSource sh src,
        Cmd.compileShader sh]) ∧
    link_program linkOk pr v f =
      (pr, [Cmd.createProgram, Cmd.attachShader pr v, Cmd.attachShader pr f,
        Cmd.linkProgram pr]) ∧
    mainResult env InitOutcome.windowFail events k =
      Except.error "Failed to create GLFW window." ∧
    mainResult env InitOutcome.ok events k =
      Except.ok (mainTrace env events k) :=
  ⟨rfl, rfl, rfl, rfl⟩

/-- C7 -- The attribute layout is configured from locations queried by the
names "position" and "color", both with a stride of 6 floats,
non-normalized: position as 2 floats at byte offset 0, color as 4 floats
at a byte offset of 2 floats. -/
theorem attribute_layout (env : Env) :
    (setupTrace env).filter isGetAttribLocation =
      [Cmd.getAttribLocation 3 "position", Cmd.getAttribLocation 3 "color"] ∧
    (setupTrace env).filter isVertexAttribPointer =
      [Cmd.vertexAttribPointer (glUintCast (env.attribLoc "position")) 2
         GL_FLOAT false (6 * sizeof_float) 0,
       Cmd.vertexAttribPointer (glUintCast (env.attribLoc "color")) 4
         GL_FLOAT false (6 * sizeof_float) (2 * sizeof_float)] :=
  ⟨rfl, rfl⟩

/-- C8 -- Exactly at loop exit the GPU objects are released, in the order
program (3), fragment shader (2), vertex shader (1), buffer, vertex
array; no deletion occurs anywhere earlier, and an abnormal run (init or
window failure) produces no command trace at all, hence no release. -/
theorem cleanup_only_on_exit (env : Env) (events : ℕ → List Event) (k : ℕ) :
    mainTrace env events k =
      (setupTrace env ++ loopTrace env events k) ++
        [Cmd.deleteProgram 3, Cmd.deleteShader 2, Cmd.deleteShader 1,
         Cmd.deleteBuffers 1, Cmd.deleteVertexArrays 1] ∧
    (setupTrace env ++ loopTrace env events k).filter isDeleteCmd = [] ∧
    (∀ o : InitOutcome, o ≠ InitOutcome.ok →
      ∀ tr, mainResult env o events k ≠ Except.ok tr) := by
  refine ⟨by simp [mainTrace, cleanupTrace], ?_, ?_⟩
  · rw [List.filter_append, loopTrace_filter_deleteCmd]
    rfl
  · intro o ho tr
    cases o with
    | ok => exact absurd rfl ho
    | initFail => simp [mainResult]
    | windowFail => simp [mainResult]

/-- Closed-input instance of `cleanup_only_on_exit`: a run whose window
creation failed yields no command trace. -/
theorem cleanup_only_on_exit_witness :
    mainResult envZero InitOutcome.windowFail noEvents 0 ≠
      Except.ok cleanupTrace :=
  (cleanup_only_on_exit envZero noEvents 0).2.2 InitOutcome.windowFail
    (by decide) cleanupTrace

/-- C9 -- The glfw requests are exactly: context version 3.2, forward
compatible, core profile, then one 800x600 windowed window titled
"Spiiiin". -/
theorem window_request (env : Env) :
    (setupTrace env).filter isWindowCmd =
      [Cmd.windowHint (WindowHint.contextVersion 3 2),
       Cmd.windowHint (WindowHint.openglForwardCompat true),
       Cmd.windowHint WindowHint.openglCoreProfile,
       Cmd.createWindow 800 600 "Spiiiin" WindowMode.windowed] :=
  rfl

end Spin
